import Mathlib

/-!
Shallow embedding of `src/backend/proxy.rs` of the show-image-rs repository:
the cross-thread command-dispatch layer (`ContextProxy`, `WindowProxy`,
`ContextEvent`, `run_function`, `run_function_wait`, `send_user_event` and the
window-scoped convenience operations), together with models of the collaborators
the proxy layer uses: the one-shot result channel (`crate::oneshot`), the error
types (`crate::error`), the owning thread's context state (`ContextHandle`) and
winit's event-loop wake queue.

Rust closures `FnOnce(&mut ContextHandle<U>) -> T` are embedded as pure
functions `ContextHandle U → ContextHandle U × T`.  The captured one-shot
sender of `run_function_wait` is made explicit: the wrapped closure acts on the
pair of the context state and the channel state.  The behaviour of the
environment during one blocking round trip is captured by the aliveness flag of
the wake queue (was the owning thread's event loop still accepting events at
submission time) and a `Fate` value (did the owning thread execute the
dispatched envelope, or did it exit and drop the envelope unrun).
-/

namespace ShowImage

/-- Window identifiers are opaque, stable, comparable values (winit `WindowId`);
embedded as natural numbers. -/
abbrev WindowId := Nat

/-- Window creation options; opaque to the proxy layer, embedded as a token. -/
structure WindowOptions where
  token : Nat
deriving DecidableEq, Repr

/-- Image payloads (`Image<'static>`); opaque to the proxy layer, embedded as a
token. -/
structure Image where
  token : Nat
deriving DecidableEq, Repr

/-- Modelled from the spec: `EventLoopClosedError` from `crate::error` (not
under `src/`): the unit-like error reported when the owning thread's wake queue
is gone. -/
structure EventLoopClosedError where
deriving DecidableEq, Repr

/-- Modelled from the spec: the domain failure of a window-specific operation
from `crate::error` (not under `src/`), e.g. an unknown window identifier. -/
inductive WindowOperationError where
  | invalidWindowId (id : WindowId)
deriving DecidableEq, Repr

/-- Modelled from the spec: the domain failure of window creation from
`crate::error` (not under `src/`): a platform window-creation failure. -/
inductive CreateWindowError where
  | platformError
deriving DecidableEq, Repr

/-- Modelled from the spec: `ProxyCreateWindowError` from `crate::error` (not
under `src/`): submission failure or window-creation domain failure. -/
inductive ProxyCreateWindowError where
  | eventLoopClosed (e : EventLoopClosedError)
  | createWindow (e : CreateWindowError)
deriving DecidableEq, Repr

/-- Modelled from the spec: `ProxyWindowOperationError` from `crate::error`
(not under `src/`): submission failure or window-specific domain failure. -/
inductive ProxyWindowOperationError where
  | eventLoopClosed (e : EventLoopClosedError)
  | operation (e : WindowOperationError)
deriving DecidableEq, Repr

/-! ## The one-shot result channel (`crate::oneshot`) -/

/-- Modelled from the spec: the state of a one-shot channel pair from
`crate::oneshot` (not under `src/`).  `sent` records, in order, every value
that has flowed through the channel; `senderAlive` is true while the sender
half still exists unconsumed. -/
structure Channel (T : Type) where
  sent : List T
  senderAlive : Bool
deriving DecidableEq, Repr

/-- Modelled from the spec: `oneshot::channel()` produces a fresh linked pair:
nothing sent yet, sender alive. -/
def oneshot.channel (T : Type) : Channel T :=
  { sent := [], senderAlive := true }

/-- Modelled from the spec: `sender.send(value)` transmits `value` to the
paired receiver and consumes the sender. -/
def Channel.send (c : Channel T) (v : T) : Channel T :=
  { sent := c.sent ++ [v], senderAlive := false }

/-- Modelled from the spec: destruction of the sender half without sending. -/
def Channel.dropSender (c : Channel T) : Channel T :=
  { c with senderAlive := false }

/-- Modelled from the spec: the failure of `receiver.recv()` when the paired
sender was destroyed without having sent. -/
inductive RecvError where
  | disconnected
deriving DecidableEq, Repr

/-- Modelled from the spec: `receiver.recv()` observed once the sender half has
been resolved (consumed by a send, or dropped): returns the sent value, or
fails with a disconnected condition when no value was ever sent. -/
def Channel.recv (c : Channel T) : Except RecvError T :=
  match c.sent with
  | v :: _ => .ok v
  | [] => .error .disconnected

/-! ## The wake queue and command envelopes -/

/-- The owning thread's wake queue (the winit event loop's cross-thread
channel): alive while the event loop runs, holding the pending envelopes in
FIFO order. -/
structure WakeQueue (E : Type) where
  alive : Bool
  items : List E

/-- Command envelope `ContextEvent<UserEvent>` from `src/backend/proxy.rs`:
either `ExecuteFunction` (a boxed closure to run on the owning thread) or
`UserEvent`.  The closure type is a parameter `F` of the embedding because the
Rust closures capture heterogeneous state (such as one-shot senders). -/
inductive ContextEvent (F UserEvent : Type) where
  | executeFunction (function : F)
  | userEvent (event : UserEvent)

/-- winit `EventLoopClosed<T>` error: `send_event` hands the undelivered event
back inside the error when the event loop is gone. -/
inductive EventLoopClosed (E : Type) where
  | mk (event : E)

/-- winit `EventLoopProxy::send_event`: appends the event to the wake queue
when the event loop is alive, otherwise returns the event back inside an
`EventLoopClosed` error, leaving the queue unchanged. -/
def EventLoopProxy.send_event (q : WakeQueue E) (event : E) :
    WakeQueue E × Except (EventLoopClosed E) Unit :=
  if q.alive then
    ({ q with items := q.items ++ [event] }, .ok ())
  else
    (q, .error (.mk event))

/-- winit `EventLoopProxy<ContextEvent<UserEvent>>` handle held by a
`ContextProxy`: an opaque handle naming the owning thread's wake queue; clones
denote the same queue. -/
structure EventLoopProxy (UserEvent : Type) where
  handle : Nat
deriving DecidableEq, Repr

/-- Cloning a winit proxy handle yields a handle to the same event loop. -/
def EventLoopProxy.clone (p : EventLoopProxy U) : EventLoopProxy U :=
  { handle := p.handle }

/-- The `ContextProxy<UserEvent>` of `src/backend/proxy.rs`: a cloneable handle
to the owning thread's wake queue. -/
structure ContextProxy (UserEvent : Type) where
  event_loop : EventLoopProxy UserEvent
deriving DecidableEq, Repr

/-- The manual `Clone` impl of `ContextProxy`:
`Self { event_loop: self.event_loop.clone() }`. -/
def ContextProxy.clone (p : ContextProxy U) : ContextProxy U :=
  { event_loop := EventLoopProxy.clone p.event_loop }

/-- `ContextProxy::run_function`: boxes the closure, wraps it as an
`ExecuteFunction` envelope, sends it via the event loop proxy, and maps the
send failure to `EventLoopClosedError` (discarding the returned event). -/
def ContextProxy.run_function (q : WakeQueue (ContextEvent F U)) (function : F) :
    WakeQueue (ContextEvent F U) × Except EventLoopClosedError Unit :=
  let event := ContextEvent.executeFunction function
  let sent := EventLoopProxy.send_event q event
  (sent.1, sent.2.mapError fun _ => EventLoopClosedError.mk)

/-- `ContextProxy::send_user_event`: wraps the user event as a `UserEvent`
envelope, sends it via the event loop proxy, and maps the send failure to
`EventLoopClosedError`. -/
def ContextProxy.send_user_event (q : WakeQueue (ContextEvent F U)) (event : U) :
    WakeQueue (ContextEvent F U) × Except EventLoopClosedError Unit :=
  let sent := EventLoopProxy.send_event q (ContextEvent.userEvent event)
  (sent.1, sent.2.mapError fun _ => EventLoopClosedError.mk)

/-! ## The owning thread's context state -/

/-- Modelled from the spec: one window of the owning thread's window registry
(the context state is not under `src/`; only the proxy layer that calls into it
is).  Event handlers are opaque closures, recorded as tokens. -/
structure Window where
  id : WindowId
  title : String
  options : WindowOptions
  visible : Bool
  image : Option (String × Image)
  handlers : List Nat
deriving DecidableEq, Repr

/-- Modelled from the spec: the owning thread's context state
(`ContextHandle<UserEvent>`, not under `src/`): the window registry and the
registered global event handlers, mutated exclusively by the owning thread
while executing dispatched closures.  `platformHealthy` models the platform
condition under which window creation succeeds; `nextWindowId` is the source of
the identifiers the owning thread assigns. -/
structure ContextHandle (UserEvent : Type) where
  nextWindowId : WindowId
  windows : List Window
  eventHandlers : List Nat
  platformHealthy : Bool
deriving DecidableEq, Repr

/-- Modelled from the spec: the domain operation `create_window` of the context
state: assigns the next free identifier and registers the window, or fails
with a platform window-creation failure.  The assigned identifier is returned
(the proxy layer maps the created window to its id). -/
def ContextHandle.create_window (ctx : ContextHandle U) (title : String)
    (options : WindowOptions) : ContextHandle U × Except CreateWindowError WindowId :=
  if ctx.platformHealthy then
    ({ ctx with
        nextWindowId := ctx.nextWindowId + 1,
        windows := ctx.windows ++
          [{ id := ctx.nextWindowId, title := title, options := options,
             visible := true, image := none, handlers := [] }] },
      .ok ctx.nextWindowId)
  else
    (ctx, .error .platformError)

/-- Modelled from the spec: does the registry hold a window with this id. -/
def ContextHandle.hasWindow (ctx : ContextHandle U) (window_id : WindowId) : Bool :=
  ctx.windows.any fun w => w.id = window_id

/-- Modelled from the spec: the domain operation `destroy_window`: removes the
window, or fails when the identifier is unknown. -/
def ContextHandle.destroy_window (ctx : ContextHandle U) (window_id : WindowId) :
    ContextHandle U × Except WindowOperationError Unit :=
  if ctx.hasWindow window_id then
    ({ ctx with windows := ctx.windows.filter fun w => w.id ≠ window_id }, .ok ())
  else
    (ctx, .error (.invalidWindowId window_id))

/-- Modelled from the spec: the domain operation `set_window_visible`: updates
the window's visibility, or fails when the identifier is unknown. -/
def ContextHandle.set_window_visible (ctx : ContextHandle U) (window_id : WindowId)
    (visible : Bool) : ContextHandle U × Except WindowOperationError Unit :=
  if ctx.hasWindow window_id then
    ({ ctx with windows := ctx.windows.map fun w =>
        if w.id = window_id then { w with visible := visible } else w }, .ok ())
  else
    (ctx, .error (.invalidWindowId window_id))

/-- Modelled from the spec: the domain operation `set_window_image`: installs
the named image on the window, or fails when the identifier is unknown. -/
def ContextHandle.set_window_image (ctx : ContextHandle U) (window_id : WindowId)
    (name : String) (image : Image) : ContextHandle U × Except WindowOperationError Unit :=
  if ctx.hasWindow window_id then
    ({ ctx with windows := ctx.windows.map fun w =>
        if w.id = window_id then { w with image := some (name, image) } else w }, .ok ())
  else
    (ctx, .error (.invalidWindowId window_id))

/-- Modelled from the spec: the domain operation `add_event_handler`: registers
a global event handler (an opaque token); infallible. -/
def ContextHandle.add_event_handler (ctx : ContextHandle U) (handler : Nat) :
    ContextHandle U × Unit :=
  ({ ctx with eventHandlers := ctx.eventHandlers ++ [handler] }, ())

/-- Modelled from the spec: the domain operation `add_window_event_handler`:
registers a handler on the window, or fails when the identifier is unknown. -/
def ContextHandle.add_window_event_handler (ctx : ContextHandle U) (window_id : WindowId)
    (handler : Nat) : ContextHandle U × Except WindowOperationError Unit :=
  if ctx.hasWindow window_id then
    ({ ctx with windows := ctx.windows.map fun w =>
        if w.id = window_id then { w with handlers := w.handlers ++ [handler] } else w }, .ok ())
  else
    (ctx, .error (.invalidWindowId window_id))

/-! ## The blocking round trip: `run_function_wait` -/

/-- A plain fire-and-forget closure `FnOnce(&mut ContextHandle<U>)` embedded as
a state transformer on the context. -/
abbrev CtxFn (U : Type) := ContextHandle U → ContextHandle U

/-- The closure type dispatched by `run_function_wait`: a closure that captured
the one-shot sender, so its effect acts on the context state and the channel
state together. -/
abbrev CtxChFn (U T : Type) := ContextHandle U × Channel T → ContextHandle U × Channel T

/-- The closure built inside `run_function_wait`:
`move |context| result_tx.send((function)(context))` — runs the user closure on
the context and sends its result through the captured one-shot sender. -/
def wrappedFunction (f : ContextHandle U → ContextHandle U × T) : CtxChFn U T :=
  fun s =>
    let r := f s.1
    (r.1, s.2.send r.2)

/-- What the owning thread does with a successfully enqueued envelope: either
it executes it, or the event loop exits mid-flight and the envelope (with the
captured sender inside) is dropped unrun. -/
inductive Fate where
  | executed
  | dropped
deriving DecidableEq, Repr

/-- The owning thread's side of one round trip: execute the dispatched closure
against the context and channel, or drop it (dropping the captured sender). -/
def dispatch (fate : Fate) (g : CtxChFn U T) (ctx : ContextHandle U)
    (ch : Channel T) : ContextHandle U × Channel T :=
  match fate with
  | .executed => g (ctx, ch)
  | .dropped => (ctx, ch.dropSender)

/-- The full observable state of one `run_function_wait` round trip. -/
structure WaitTrace (U T : Type) where
  ctxAfter : ContextHandle U
  channel : Channel T
  result : Except EventLoopClosedError T

/-- `ContextProxy::run_function_wait`, with the one-shot channel state kept
explicit: create a fresh channel, wrap the closure so that its result is sent
through the sender, submit via `run_function` (propagating a submission
failure), then block on the receiver, mapping a disconnect to
`EventLoopClosedError`.  When submission fails, winit returns the envelope
inside the error and `map_err` discards it, dropping the captured sender. -/
def runFunctionWaitTrace (q : WakeQueue (ContextEvent (CtxChFn U T) U)) (fate : Fate)
    (ctx : ContextHandle U) (f : ContextHandle U → ContextHandle U × T) : WaitTrace U T :=
  let ch := oneshot.channel T
  let g := wrappedFunction f
  let sub := ContextProxy.run_function q g
  match sub.2 with
  | .error e => { ctxAfter := ctx, channel := ch.dropSender, result := .error e }
  | .ok _ =>
      let ran := dispatch fate g ctx ch
      { ctxAfter := ran.1, channel := ran.2,
        result := (ran.2.recv).mapError fun _ => EventLoopClosedError.mk }

/-- `ContextProxy::run_function_wait` as seen by the caller: the context state
after the round trip and the `Result<T, EventLoopClosedError>`. -/
def ContextProxy.run_function_wait (q : WakeQueue (ContextEvent (CtxChFn U T) U))
    (fate : Fate) (ctx : ContextHandle U) (f : ContextHandle U → ContextHandle U × T) :
    ContextHandle U × Except EventLoopClosedError T :=
  let t := runFunctionWaitTrace q fate ctx f
  (t.ctxAfter, t.result)

/-! ## Convenience operations and result flattening

The Rust convenience operations apply `??` to the doubly-nested result of
`run_function_wait`: the first `?` converts a submission failure
(`EventLoopClosedError`) into the caller-facing error type via `From`, the
second `?` converts the domain failure of the inner result.  The two `From`
conversions are embedded as explicit flattening functions. -/

/-- The `??` flattening for window operations: the outer transport failure
becomes the `eventLoopClosed` variant, the inner domain failure becomes the
`operation` variant. -/
def flattenWindowOp : Except EventLoopClosedError (Except WindowOperationError α) →
    Except ProxyWindowOperationError α
  | .error e => .error (.eventLoopClosed e)
  | .ok (.error e) => .error (.operation e)
  | .ok (.ok a) => .ok a

/-- The `??` flattening for window creation: the outer transport failure
becomes the `eventLoopClosed` variant, the inner domain failure becomes the
`createWindow` variant. -/
def flattenCreate : Except EventLoopClosedError (Except CreateWindowError α) →
    Except ProxyCreateWindowError α
  | .error e => .error (.eventLoopClosed e)
  | .ok (.error e) => .error (.createWindow e)
  | .ok (.ok a) => .ok a

/-- The `WindowProxy<UserEvent>` of `src/backend/proxy.rs`: a window identifier
paired with a context proxy. -/
structure WindowProxy (UserEvent : Type) where
  window_id : WindowId
  context_proxy : ContextProxy UserEvent
deriving DecidableEq, Repr

/-- `WindowProxy::new`: the public constructor, pairing any window identifier
with a context proxy. -/
def WindowProxy.new (window_id : WindowId) (context_proxy : ContextProxy U) :
    WindowProxy U :=
  { window_id := window_id, context_proxy := context_proxy }

/-- `WindowProxy::id`: plain accessor for the stored window identifier. -/
def WindowProxy.id (w : WindowProxy U) : WindowId :=
  w.window_id

/-- `ContextProxy::destroy_window`: submits a closure capturing the window id
by value via `run_function_wait` and flattens the nested result with `??`. -/
def ContextProxy.destroy_window (q : WakeQueue (ContextEvent (CtxChFn U (Except WindowOperationError Unit)) U))
    (fate : Fate) (ctx : ContextHandle U) (window_id : WindowId) :
    ContextHandle U × Except ProxyWindowOperationError Unit :=
  let r := ContextProxy.run_function_wait q fate ctx
    (fun context => ContextHandle.destroy_window context window_id)
  (r.1, flattenWindowOp r.2)

/-- `ContextProxy::set_window_visible`: submits a closure capturing the window
id and flag by value via `run_function_wait` and flattens the nested result
with `??`. -/
def ContextProxy.set_window_visible (q : WakeQueue (ContextEvent (CtxChFn U (Except WindowOperationError Unit)) U))
    (fate : Fate) (ctx : ContextHandle U) (window_id : WindowId) (visible : Bool) :
    ContextHandle U × Except ProxyWindowOperationError Unit :=
  let r := ContextProxy.run_function_wait q fate ctx
    (fun context => ContextHandle.set_window_visible context window_id visible)
  (r.1, flattenWindowOp r.2)

/-- `ContextProxy::set_window_image`: converts the name and image, submits a
closure capturing them by value via `run_function_wait` and flattens the
nested result with `??`. -/
def ContextProxy.set_window_image (q : WakeQueue (ContextEvent (CtxChFn U (Except WindowOperationError Unit)) U))
    (fate : Fate) (ctx : ContextHandle U) (window_id : WindowId) (name : String)
    (image : Image) : ContextHandle U × Except ProxyWindowOperationError Unit :=
  let r := ContextProxy.run_function_wait q fate ctx
    (fun context => ContextHandle.set_window_image context window_id name image)
  (r.1, flattenWindowOp r.2)

/-- `ContextProxy::add_event_handler`: submits a closure capturing the handler
by value via `run_function_wait`; the inner operation is infallible, so the
result of `run_function_wait` is returned as is. -/
def ContextProxy.add_event_handler (q : WakeQueue (ContextEvent (CtxChFn U Unit) U))
    (fate : Fate) (ctx : ContextHandle U) (handler : Nat) :
    ContextHandle U × Except EventLoopClosedError Unit :=
  ContextProxy.run_function_wait q fate ctx
    (fun context => ContextHandle.add_event_handler context handler)

/-- `ContextProxy::add_window_event_handler`: submits a closure capturing the
window id and handler by value via `run_function_wait` and flattens the nested
result with `??`. -/
def ContextProxy.add_window_event_handler (q : WakeQueue (ContextEvent (CtxChFn U (Except WindowOperationError Unit)) U))
    (fate : Fate) (ctx : ContextHandle U) (window_id : WindowId) (handler : Nat) :
    ContextHandle U × Except ProxyWindowOperationError Unit :=
  let r := ContextProxy.run_function_wait q fate ctx
    (fun context => ContextHandle.add_window_event_handler context window_id handler)
  (r.1, flattenWindowOp r.2)

/-- `ContextProxy::create_window`: submits a closure capturing the converted
title and the options by value via `run_function_wait`, flattens the nested
result with `??`, and wraps the identifier assigned by the owning thread in
`WindowProxy::new(window_id, self.clone())`. -/
def ContextProxy.create_window (self : ContextProxy U)
    (q : WakeQueue (ContextEvent (CtxChFn U (Except CreateWindowError WindowId)) U))
    (fate : Fate) (ctx : ContextHandle U) (title : String) (options : WindowOptions) :
    ContextHandle U × Except ProxyCreateWindowError (WindowProxy U) :=
  let r := ContextProxy.run_function_wait q fate ctx
    (fun context => ContextHandle.create_window context title options)
  match flattenCreate r.2 with
  | .ok window_id => (r.1, .ok (WindowProxy.new window_id (ContextProxy.clone self)))
  | .error e => (r.1, .error e)

/-! ## WindowProxy methods

`destroy`, `set_visible` and `set_image` take `&self` in Rust, so they cannot
touch the proxy's fields; `add_window_event_handler` takes `&mut self`, so its
embedding returns the proxy state it leaves behind. -/

/-- `WindowProxy::destroy`: delegates to
`self.context_proxy.destroy_window(self.window_id)`. -/
def WindowProxy.destroy (w : WindowProxy U)
    (q : WakeQueue (ContextEvent (CtxChFn U (Except WindowOperationError Unit)) U))
    (fate : Fate) (ctx : ContextHandle U) :
    ContextHandle U × Except ProxyWindowOperationError Unit :=
  ContextProxy.destroy_window q fate ctx w.window_id

/-- `WindowProxy::set_visible`: delegates to
`self.context_proxy.set_window_visible(self.window_id, visible)`. -/
def WindowProxy.set_visible (w : WindowProxy U)
    (q : WakeQueue (ContextEvent (CtxChFn U (Except WindowOperationError Unit)) U))
    (fate : Fate) (ctx : ContextHandle U) (visible : Bool) :
    ContextHandle U × Except ProxyWindowOperationError Unit :=
  ContextProxy.set_window_visible q fate ctx w.window_id visible

/-- `WindowProxy::set_image`: delegates to
`self.context_proxy.set_window_image(self.window_id, name, image)`. -/
def WindowProxy.set_image (w : WindowProxy U)
    (q : WakeQueue (ContextEvent (CtxChFn U (Except WindowOperationError Unit)) U))
    (fate : Fate) (ctx : ContextHandle U) (name : String) (image : Image) :
    ContextHandle U × Except ProxyWindowOperationError Unit :=
  ContextProxy.set_window_image q fate ctx w.window_id name image

/-- `WindowProxy::add_window_event_handler` (`&mut self`): delegates to
`self.context_proxy.add_window_event_handler(self.window_id, handler)`; the
body touches no field, so the proxy state left behind is `w` itself. -/
def WindowProxy.add_window_event_handler (w : WindowProxy U)
    (q : WakeQueue (ContextEvent (CtxChFn U (Except WindowOperationError Unit)) U))
    (fate : Fate) (ctx : ContextHandle U) (handler : Nat) :
    WindowProxy U × ContextHandle U × Except ProxyWindowOperationError Unit :=
  (w, ContextProxy.add_window_event_handler q fate ctx w.window_id handler)

/-! ## Owning-thread processing of the wake queue -/

/-- The owning thread's handling of one dequeued envelope: an
`ExecuteFunction` envelope runs its closure against the context state; a
`UserEvent` envelope is forwarded to the registered handlers, which is outside
the proxy layer and leaves the embedded context state unchanged. -/
def processEvent (ctx : ContextHandle U) : ContextEvent (CtxFn U) U → ContextHandle U
  | .executeFunction f => f ctx
  | .userEvent _ => ctx

/-- The owning thread drains its wake queue, processing envelopes strictly in
FIFO order. -/
def processQueue (ctx : ContextHandle U) (q : WakeQueue (ContextEvent (CtxFn U) U)) :
    ContextHandle U :=
  q.items.foldl processEvent ctx

/-! ## Sequences of WindowProxy operations -/

/-- One public `WindowProxy` operation, with its arguments. -/
inductive WindowProxyOp where
  | destroy
  | set_visible (visible : Bool)
  | set_image (name : String) (image : Image)
  | add_window_event_handler (handler : Nat)
  | readId
  | readContextProxy

/-- One step of a call sequence on a `WindowProxy`: the operation together with
the environment of its round trip (the wake queue state at submission and the
fate of the dispatched envelope). -/
structure OpStep (U : Type) where
  op : WindowProxyOp
  queue : WakeQueue (ContextEvent (CtxChFn U (Except WindowOperationError Unit)) U)
  fate : Fate

/-- Apply one `WindowProxy` operation, threading the proxy state (only
`add_window_event_handler` takes the proxy by `&mut self`; the accessors `id`
and `context_proxy` have no side effects). -/
def applyOp (s : OpStep U) (w : WindowProxy U) (ctx : ContextHandle U) :
    WindowProxy U × ContextHandle U :=
  match s.op with
  | .destroy => (w, (WindowProxy.destroy w s.queue s.fate ctx).1)
  | .set_visible v => (w, (WindowProxy.set_visible w s.queue s.fate ctx v).1)
  | .set_image n i => (w, (WindowProxy.set_image w s.queue s.fate ctx n i).1)
  | .add_window_event_handler h =>
      let r := WindowProxy.add_window_event_handler w s.queue s.fate ctx h
      (r.1, r.2.1)
  | .readId => (w, ctx)
  | .readContextProxy => (w, ctx)

/-- Apply a whole sequence of `WindowProxy` operations in order. -/
def applyOps (steps : List (OpStep U)) (w : WindowProxy U) (ctx : ContextHandle U) :
    WindowProxy U × ContextHandle U :=
  steps.foldl (fun p s => applyOp s p.1 p.2) (w, ctx)

/-! ## Provenance of WindowProxy values -/

/-- The claim's notion of the sanctioned provenance of a `WindowProxy`: the
value was obtained by submitting a create-window command on `self` against the
owning thread's context state `ctx` and receiving back the assigned
identifier. -/
def createdByCreateWindowFrom (self : ContextProxy U) (ctx : ContextHandle U)
    (w : WindowProxy U) : Prop :=
  ∃ qc fate title options,
    (ContextProxy.create_window self qc fate ctx title options).2 = .ok w

/-! ## Helper lemmas -/

theorem run_function_eq_alive (q : WakeQueue (ContextEvent F U)) (f : F)
    (h : q.alive = true) :
    ContextProxy.run_function q f =
      ({ q with items := q.items ++ [ContextEvent.executeFunction f] }, .ok ()) := by
  simp [ContextProxy.run_function, EventLoopProxy.send_event, h, Except.mapError]

theorem run_function_eq_closed (q : WakeQueue (ContextEvent F U)) (f : F)
    (h : q.alive = false) :
    ContextProxy.run_function q f = (q, .error EventLoopClosedError.mk) := by
  simp [ContextProxy.run_function, EventLoopProxy.send_event, h, Except.mapError]

theorem run_function_wait_eq_executed (q : WakeQueue (ContextEvent (CtxChFn U T) U))
    (ctx : ContextHandle U) (f : ContextHandle U → ContextHandle U × T)
    (h : q.alive = true) :
    ContextProxy.run_function_wait q .executed ctx f = ((f ctx).1, .ok (f ctx).2) := by
  simp [ContextProxy.run_function_wait, runFunctionWaitTrace, run_function_eq_alive _ _ h,
    dispatch, wrappedFunction, oneshot.channel, Channel.send, Channel.recv, Except.mapError]

theorem run_function_wait_eq_dropped (q : WakeQueue (ContextEvent (CtxChFn U T) U))
    (ctx : ContextHandle U) (f : ContextHandle U → ContextHandle U × T)
    (h : q.alive = true) :
    ContextProxy.run_function_wait q .dropped ctx f = (ctx, .error EventLoopClosedError.mk) := by
  simp [ContextProxy.run_function_wait, runFunctionWaitTrace, run_function_eq_alive _ _ h,
    dispatch, oneshot.channel, Channel.dropSender, Channel.recv, Except.mapError]

theorem run_function_wait_eq_closed (q : WakeQueue (ContextEvent (CtxChFn U T) U))
    (fate : Fate) (ctx : ContextHandle U) (f : ContextHandle U → ContextHandle U × T)
    (h : q.alive = false) :
    ContextProxy.run_function_wait q fate ctx f = (ctx, .error EventLoopClosedError.mk) := by
  simp [ContextProxy.run_function_wait, runFunctionWaitTrace, run_function_eq_closed _ _ h]

/-! ## Claim theorems -/

/-- C1: for every closure `f`, `ContextProxy::run_function_wait(f)` creates a
fresh one-shot channel, wraps `f` so that its return value is sent through the
sender, submits via `run_function`, and blocks on the receiver (embedded in
the definition of `runFunctionWaitTrace`); it returns `Ok` with the result of
`f` when the owning thread executes `f`, and fails with `EventLoopClosed` if
either the submission fails or the receiver observes the sender dropped
without a value having been sent. -/
theorem C1_run_function_wait_spec (q : WakeQueue (ContextEvent (CtxChFn U T) U))
    (fate : Fate) (ctx : ContextHandle U) (f : ContextHandle U → ContextHandle U × T) :
    (q.alive = true → fate = .executed →
      ContextProxy.run_function_wait q fate ctx f = ((f ctx).1, .ok (f ctx).2)) ∧
    (q.alive = false →
      ContextProxy.run_function_wait q fate ctx f = (ctx, .error EventLoopClosedError.mk)) ∧
    (q.alive = true → fate = .dropped →
      ContextProxy.run_function_wait q fate ctx f = (ctx, .error EventLoopClosedError.mk)) := by
  refine ⟨fun ha hf => ?_, fun hc => ?_, fun ha hf => ?_⟩
  · subst hf; exact run_function_wait_eq_executed q ctx f ha
  · exact run_function_wait_eq_closed q fate ctx f hc
  · subst hf; exact run_function_wait_eq_dropped q ctx f ha

/-- C1 witness: with a live queue whose envelope is executed, a closure
returning 42 round-trips to `Ok 42` and the context mutation is applied. -/
theorem C1_witness :
    ContextProxy.run_function_wait (U := Unit) (T := Nat)
      { alive := true, items := [] } .executed
      { nextWindowId := 0, windows := [], eventHandlers := [], platformHealthy := true }
      (fun c => (c, 42)) =
      ({ nextWindowId := 0, windows := [], eventHandlers := [], platformHealthy := true },
        .ok 42) :=
  (C1_run_function_wait_spec _ _ _ _).1 rfl rfl

/-- C2: for every closure `f`, `ContextProxy::run_function(f)` enqueues `f`
wrapped as an `ExecuteFunction` envelope into the owning thread's wake queue
and returns `Ok(())` immediately; it returns an error if and only if the wake
queue is gone, and that error is always `EventLoopClosed`. -/
theorem C2_run_function_spec (q : WakeQueue (ContextEvent F U)) (f : F) :
    (q.alive = true →
      ContextProxy.run_function q f =
        ({ q with items := q.items ++ [ContextEvent.executeFunction f] }, .ok ())) ∧
    ((∃ e, (ContextProxy.run_function q f).2 = .error e) ↔ q.alive = false) ∧
    (∀ e, (ContextProxy.run_function q f).2 = .error e → e = EventLoopClosedError.mk) := by
  refine ⟨fun ha => run_function_eq_alive q f ha, ⟨?_, ?_⟩, fun e _ => rfl⟩
  · rintro ⟨e, he⟩
    cases ha : q.alive
    · rfl
    · rw [run_function_eq_alive q f ha] at he
      exact absurd he (by simp)
  · intro hc
    exact ⟨EventLoopClosedError.mk, by rw [run_function_eq_closed q f hc]⟩

/-- C2 witness: on a live empty queue, submitting a closure appends exactly
one `ExecuteFunction` envelope and returns `Ok(())`. -/
theorem C2_witness :
    ContextProxy.run_function (F := CtxFn Unit) (U := Unit)
      { alive := true, items := [] } (fun c => c) =
      ({ alive := true, items := [ContextEvent.executeFunction (fun c => c)] }, .ok ()) :=
  (C2_run_function_spec _ _).1 rfl

/-- C6: for every user event `e`, `ContextProxy::send_user_event(e)` enqueues
`e` directly as a `UserEvent` envelope (not wrapped as a closure) into the
owning thread's wake queue, and fails with `EventLoopClosed` if and only if
the wake queue is gone. -/
theorem C6_send_user_event_spec (q : WakeQueue (ContextEvent F U)) (e : U) :
    (q.alive = true →
      ContextProxy.send_user_event q e =
        ({ q with items := q.items ++ [ContextEvent.userEvent e] }, .ok ())) ∧
    (q.alive = false →
      ContextProxy.send_user_event q e = (q, .error EventLoopClosedError.mk)) ∧
    ((∃ err, (ContextProxy.send_user_event q e).2 = .error err) ↔ q.alive = false) := by
  refine ⟨fun ha => ?_, fun hc => ?_, ⟨?_, ?_⟩⟩
  · simp [ContextProxy.send_user_event, EventLoopProxy.send_event, ha, Except.mapError]
  · simp [ContextProxy.send_user_event, EventLoopProxy.send_event, hc, Except.mapError]
  · rintro ⟨err, he⟩
    cases ha : q.alive
    · rfl
    · simp [ContextProxy.send_user_event, EventLoopProxy.send_event, ha, Except.mapError] at he
  · intro hc
    exact ⟨EventLoopClosedError.mk, by
      simp [ContextProxy.send_user_event, EventLoopProxy.send_event, hc, Except.mapError]⟩

/-- C6 witness: on a live empty queue, sending the user event 7 appends
exactly one `UserEvent` envelope and returns `Ok(())`. -/
theorem C6_witness :
    ContextProxy.send_user_event (F := CtxFn Nat) (U := Nat)
      { alive := true, items := [] } 7 =
      ({ alive := true, items := [ContextEvent.userEvent 7] }, .ok ()) :=
  (C6_send_user_event_spec _ _).1 rfl

/-- C8: if `ContextProxy::run_function(f)` returns an `EventLoopClosed` error,
then the closure `f` was dropped without ever being executed: the wake queue
is unchanged, draining the queue afterwards produces the same context state as
if the call had never happened, and the error value is the constant
`EventLoopClosedError`, carrying no part of the closure (the result is the
same for every closure). -/
theorem C8_run_function_closed_no_effect (q : WakeQueue (ContextEvent (CtxFn U) U))
    (f : CtxFn U) (e : EventLoopClosedError)
    (h : (ContextProxy.run_function q f).2 = .error e) :
    e = EventLoopClosedError.mk ∧
    (ContextProxy.run_function q f).1 = q ∧
    (∀ ctx : ContextHandle U,
      processQueue ctx (ContextProxy.run_function q f).1 = processQueue ctx q) ∧
    (∀ g : CtxFn U, ContextProxy.run_function q f = ContextProxy.run_function q g) := by
  have hc : q.alive = false := by
    cases ha : q.alive
    · rfl
    · rw [run_function_eq_alive q f ha] at h
      exact absurd h (by simp)
  rw [run_function_eq_closed q f hc]
  exact ⟨rfl, rfl, fun ctx => rfl, fun g => by rw [run_function_eq_closed q g hc]⟩

/-- C8 witness: on a closed queue the submission fails with the bare
`EventLoopClosedError` and the queue processed afterwards is the untouched
original. -/
theorem C8_witness :
    (ContextProxy.run_function (U := Unit) { alive := false, items := [] }
      (fun c : ContextHandle Unit => c)).1 = { alive := false, items := [] } :=
  (C8_run_function_closed_no_effect { alive := false, items := [] } _ EventLoopClosedError.mk rfl).2.1

theorem trace_closed (q : WakeQueue (ContextEvent (CtxChFn U T) U)) (fate : Fate)
    (ctx : ContextHandle U) (f : ContextHandle U → ContextHandle U × T)
    (h : q.alive = false) :
    runFunctionWaitTrace q fate ctx f =
      { ctxAfter := ctx, channel := { sent := [], senderAlive := false },
        result := .error EventLoopClosedError.mk } := by
  simp [runFunctionWaitTrace, run_function_eq_closed _ _ h, oneshot.channel, Channel.dropSender]

theorem trace_dropped (q : WakeQueue (ContextEvent (CtxChFn U T) U))
    (ctx : ContextHandle U) (f : ContextHandle U → ContextHandle U × T)
    (h : q.alive = true) :
    runFunctionWaitTrace q .dropped ctx f =
      { ctxAfter := ctx, channel := { sent := [], senderAlive := false },
        result := .error EventLoopClosedError.mk } := by
  simp [runFunctionWaitTrace, run_function_eq_alive _ _ h, dispatch, oneshot.channel,
    Channel.dropSender, Channel.recv, Except.mapError]

theorem trace_executed (q : WakeQueue (ContextEvent (CtxChFn U T) U))
    (ctx : ContextHandle U) (f : ContextHandle U → ContextHandle U × T)
    (h : q.alive = true) :
    runFunctionWaitTrace q .executed ctx f =
      { ctxAfter := (f ctx).1, channel := { sent := [(f ctx).2], senderAlive := false },
        result := .ok (f ctx).2 } := by
  simp [runFunctionWaitTrace, run_function_eq_alive _ _ h, dispatch, wrappedFunction,
    oneshot.channel, Channel.send, Channel.recv, Except.mapError]

/-- C9: the one-shot channel created inside `run_function_wait` has its sender
moved into the one dispatched closure, which sends exactly once (the user
closure's result) if and when it executes: after the round trip the sender is
always gone, at most one value ever flowed through the channel, exactly the
closure's result flowed when the envelope was executed, and nothing flowed
when submission failed or the envelope was dropped. -/
theorem C9_oneshot_channel_single_use (q : WakeQueue (ContextEvent (CtxChFn U T) U))
    (fate : Fate) (ctx : ContextHandle U) (f : ContextHandle U → ContextHandle U × T) :
    ((runFunctionWaitTrace q fate ctx f).channel.senderAlive = false) ∧
    ((runFunctionWaitTrace q fate ctx f).channel.sent.length ≤ 1) ∧
    (q.alive = true → fate = Fate.executed →
      (runFunctionWaitTrace q fate ctx f).channel.sent = [(f ctx).2]) ∧
    ((q.alive = false ∨ fate = Fate.dropped) →
      (runFunctionWaitTrace q fate ctx f).channel.sent = []) := by
  cases ha : q.alive
  · simp [trace_closed q fate ctx f ha]
  · cases fate
    case dropped => simp [trace_dropped q ctx f ha]
    case executed => simp [trace_executed q ctx f ha]

/-- C9 witness: with a live queue and an executed envelope, exactly the
closure's result 42 flows through the channel. -/
theorem C9_witness :
    (runFunctionWaitTrace (U := Unit) (T := Nat) { alive := true, items := [] } .executed
      { nextWindowId := 0, windows := [], eventHandlers := [], platformHealthy := true }
      (fun c => (c, 42))).channel.sent = [42] :=
  (C9_oneshot_channel_single_use _ _ _ _).2.2.1 rfl rfl

/-- C4: every `WindowProxy` method among `destroy`, `set_visible`, `set_image`
and `add_window_event_handler` is a pure delegation: the call equals the
corresponding `ContextProxy` method applied to the stored window identifier
and the same arguments, with no additional state or effect in the
`WindowProxy` layer. -/
theorem C4_window_proxy_delegation (w : WindowProxy U)
    (q : WakeQueue (ContextEvent (CtxChFn U (Except WindowOperationError Unit)) U))
    (fate : Fate) (ctx : ContextHandle U) :
    (WindowProxy.destroy w q fate ctx =
      ContextProxy.destroy_window q fate ctx (WindowProxy.id w)) ∧
    (∀ visible, WindowProxy.set_visible w q fate ctx visible =
      ContextProxy.set_window_visible q fate ctx (WindowProxy.id w) visible) ∧
    (∀ name image, WindowProxy.set_image w q fate ctx name image =
      ContextProxy.set_window_image q fate ctx (WindowProxy.id w) name image) ∧
    (∀ handler, WindowProxy.add_window_event_handler w q fate ctx handler =
      (w, ContextProxy.add_window_event_handler q fate ctx (WindowProxy.id w) handler)) :=
  ⟨rfl, fun _ => rfl, fun _ _ => rfl, fun _ => rfl⟩

theorem applyOp_fst (s : OpStep U) (w : WindowProxy U) (ctx : ContextHandle U) :
    (applyOp s w ctx).1 = w := by
  rcases s with ⟨op, q, fate⟩
  cases op <;> rfl

/-- C10: no sequence of `WindowProxy` operations (`destroy`, `set_visible`,
`set_image`, `add_window_event_handler`, `id`, `context_proxy`) ever modifies
the proxy's stored `window_id` or replaces its stored `context_proxy`: after
any call sequence the proxy is unchanged, so `id()` still returns the
identifier it was constructed with and `context_proxy()` still refers to the
same underlying queue handle. -/
theorem C10_window_proxy_frame (steps : List (OpStep U)) (w : WindowProxy U)
    (ctx : ContextHandle U) :
    (applyOps steps w ctx).1 = w ∧
    WindowProxy.id (applyOps steps w ctx).1 = WindowProxy.id w ∧
    WindowProxy.context_proxy (applyOps steps w ctx).1 =
      WindowProxy.context_proxy w := by
  have main : ∀ (l : List (OpStep U)) (p : WindowProxy U × ContextHandle U),
      (l.foldl (fun p s => applyOp s p.1 p.2) p).1 = p.1 := by
    intro l
    induction l with
    | nil => intro p; rfl
    | cons s rest ih =>
        intro p
        simp only [List.foldl_cons]
        rw [ih]
        exact applyOp_fst s p.1 p.2
  have h := main steps (w, ctx)
  exact ⟨h, by rw [applyOps, h], by rw [applyOps, h]⟩

theorem run_function_wait_transport_error (q : WakeQueue (ContextEvent (CtxChFn U T) U))
    (fate : Fate) (ctx : ContextHandle U) (f : ContextHandle U → ContextHandle U × T)
    (h : q.alive = false ∨ fate = Fate.dropped) :
    (ContextProxy.run_function_wait q fate ctx f).2 = .error EventLoopClosedError.mk := by
  rcases h with hc | hd
  · rw [run_function_wait_eq_closed q fate ctx f hc]
  · cases ha : q.alive
    · rw [run_function_wait_eq_closed q fate ctx f ha]
    · subst hd
      rw [run_function_wait_eq_dropped q ctx f ha]

theorem create_window_ok_inv (self : ContextProxy U)
    (qc : WakeQueue (ContextEvent (CtxChFn U (Except CreateWindowError WindowId)) U))
    (fate : Fate) (ctx : ContextHandle U) (title : String) (options : WindowOptions)
    (w : WindowProxy U)
    (h : (ContextProxy.create_window self qc fate ctx title options).2 = .ok w) :
    (ContextHandle.create_window ctx title options).2 = .ok (WindowProxy.id w) ∧
    w = WindowProxy.new (WindowProxy.id w) (ContextProxy.clone self) := by
  unfold ContextProxy.create_window at h
  cases ha : qc.alive
  · rw [run_function_wait_eq_closed _ _ _ _ ha] at h
    simp [flattenCreate] at h
  · cases fate
    case dropped =>
      rw [run_function_wait_eq_dropped _ _ _ ha] at h
      simp [flattenCreate] at h
    case executed =>
      rw [run_function_wait_eq_executed _ _ _ ha] at h
      cases hi : (ContextHandle.create_window ctx title options).2 with
      | error e => simp [flattenCreate, hi] at h
      | ok wid =>
          simp only [flattenCreate, hi] at h
          injection h with h
          subst h
          exact ⟨rfl, rfl⟩

/-- C5: whenever `ContextProxy::create_window` succeeds, the returned
`WindowProxy` carries exactly the window identifier that the owning thread
assigned when executing the create-window closure, and its context proxy is a
clone of the proxy on which `create_window` was called. -/
theorem C5_create_window_id (self : ContextProxy U)
    (qc : WakeQueue (ContextEvent (CtxChFn U (Except CreateWindowError WindowId)) U))
    (fate : Fate) (ctx : ContextHandle U) (title : String) (options : WindowOptions)
    (w : WindowProxy U)
    (h : (ContextProxy.create_window self qc fate ctx title options).2 = .ok w) :
    (ContextHandle.create_window ctx title options).2 = .ok (WindowProxy.id w) ∧
    WindowProxy.context_proxy w = ContextProxy.clone self := by
  obtain ⟨h1, h2⟩ := create_window_ok_inv self qc fate ctx title options w h
  refine ⟨h1, ?_⟩
  rw [h2]
  rfl

/-- C5 witness: a successful creation on a live queue with the owning thread
at next identifier 5 yields a proxy whose id is the assigned 5 and whose
context proxy is the clone of the caller's proxy. -/
theorem C5_witness :
    (ContextHandle.create_window (U := Unit)
      { nextWindowId := 5, windows := [], eventHandlers := [], platformHealthy := true }
      "t" { token := 0 }).2 =
      .ok (WindowProxy.id (WindowProxy.new (U := Unit) 5
        (ContextProxy.clone { event_loop := { handle := 3 } }))) ∧
    WindowProxy.context_proxy (WindowProxy.new (U := Unit) 5
        (ContextProxy.clone { event_loop := { handle := 3 } })) =
      ContextProxy.clone { event_loop := { handle := 3 } } :=
  C5_create_window_id { event_loop := { handle := 3 } } { alive := true, items := [] }
    .executed
    { nextWindowId := 5, windows := [], eventHandlers := [], platformHealthy := true }
    "t" { token := 0 } _ rfl

/-- C7 counterexample: the public constructor `WindowProxy::new` builds a
`WindowProxy` for identifier 42 with no create-window command involved; from
an owning thread whose context has assigned no identifier yet (next identifier
0), no create-window submission can return this proxy, so the value exists
independently of any live or intended window. -/
theorem C7_counterexample :
    WindowProxy.id (WindowProxy.new (U := Unit) 42 { event_loop := { handle := 0 } }) = 42 ∧
    ¬ createdByCreateWindowFrom { event_loop := { handle := 0 } }
        { nextWindowId := 0, windows := [], eventHandlers := [], platformHealthy := true }
        (WindowProxy.new (U := Unit) 42 { event_loop := { handle := 0 } }) := by
  refine ⟨rfl, ?_⟩
  rintro ⟨qc, fate, title, options, h⟩
  have h1 := (create_window_ok_inv _ qc fate _ title options _ h).1
  simp [ContextHandle.create_window, WindowProxy.id, WindowProxy.new] at h1

/-- C7 as amended: a `WindowProxy` pairs a window identifier with a context
proxy; `create_window` builds its result with `WindowProxy::new` from the
identifier assigned by the owning thread and a clone of the caller's proxy,
but `WindowProxy::new` is itself public, so a `WindowProxy` can equally be
constructed directly from any window identifier and any context proxy,
independently of any create-window submission. -/
theorem C7_window_proxy_construction (wid : WindowId) (p : ContextProxy U) :
    (WindowProxy.id (WindowProxy.new wid p) = wid ∧
      WindowProxy.context_proxy (WindowProxy.new wid p) = p) ∧
    (∀ self qc fate ctx title options (w : WindowProxy U),
      (ContextProxy.create_window self qc fate ctx title options).2 = .ok w →
      w = WindowProxy.new (WindowProxy.id w) (ContextProxy.clone self)) :=
  ⟨⟨rfl, rfl⟩, fun self qc fate ctx title options w h =>
    (create_window_ok_inv self qc fate ctx title options w h).2⟩

/-- C7 witness: the amended statement at identifier 42 and handle 0, together
with a concrete successful creation whose result is rebuilt by
`WindowProxy::new` from its own id and the cloned proxy. -/
theorem C7_witness :
    (WindowProxy.id (WindowProxy.new (U := Unit) 42 { event_loop := { handle := 0 } }) = 42 ∧
      WindowProxy.context_proxy (WindowProxy.new (U := Unit) 42 { event_loop := { handle := 0 } }) =
        { event_loop := { handle := 0 } }) ∧
    WindowProxy.new (U := Unit) 5 (ContextProxy.clone { event_loop := { handle := 3 } }) =
      WindowProxy.new
        (WindowProxy.id (WindowProxy.new (U := Unit) 5
          (ContextProxy.clone { event_loop := { handle := 3 } })))
        (ContextProxy.clone { event_loop := { handle := 3 } }) :=
  ⟨(C7_window_proxy_construction 42 { event_loop := { handle := 0 } }).1,
    (C7_window_proxy_construction 42 { event_loop := { handle := 0 } }).2
      { event_loop := { handle := 3 } } { alive := true, items := [] } .executed
      { nextWindowId := 5, windows := [], eventHandlers := [], platformHealthy := true }
      "t" { token := 0 } _ rfl⟩

theorem flatten_window_op_transport (q : WakeQueue (ContextEvent (CtxChFn U (Except WindowOperationError Unit)) U))
    (fate : Fate) (ctx : ContextHandle U)
    (g : ContextHandle U → ContextHandle U × Except WindowOperationError Unit)
    (h : q.alive = false ∨ fate = Fate.dropped) :
    flattenWindowOp (ContextProxy.run_function_wait q fate ctx g).2 =
      .error (.eventLoopClosed EventLoopClosedError.mk) := by
  rw [run_function_wait_transport_error q fate ctx g h]
  rfl

theorem flatten_window_op_executed (q : WakeQueue (ContextEvent (CtxChFn U (Except WindowOperationError Unit)) U))
    (ctx : ContextHandle U)
    (g : ContextHandle U → ContextHandle U × Except WindowOperationError Unit)
    (h : q.alive = true) :
    flattenWindowOp (ContextProxy.run_function_wait q .executed ctx g).2 =
      match (g ctx).2 with
      | .ok a => .ok a
      | .error e => .error (.operation e) := by
  rw [run_function_wait_eq_executed q ctx g h]
  cases hg : (g ctx).2 <;> simp [flattenWindowOp, hg]

theorem create_window_executed (self : ContextProxy U)
    (qc : WakeQueue (ContextEvent (CtxChFn U (Except CreateWindowError WindowId)) U))
    (ctx : ContextHandle U) (title : String) (options : WindowOptions)
    (ha : qc.alive = true) :
    (ContextProxy.create_window self qc .executed ctx title options).2 =
      match (ContextHandle.create_window ctx title options).2 with
      | .ok wid => .ok (WindowProxy.new wid (ContextProxy.clone self))
      | .error e => .error (.createWindow e) := by
  unfold ContextProxy.create_window
  rw [run_function_wait_eq_executed _ _ _ ha]
  cases hi : (ContextHandle.create_window ctx title options).2 <;>
    simp [flattenCreate, hi]

/-- C3: every convenience operation (`create_window`, `destroy_window`,
`set_window_visible`, `set_window_image`, `add_event_handler`,
`add_window_event_handler`) is a closure capturing its arguments by value,
submitted through `run_function_wait` (embedded in each definition), and the
doubly-nested result is flattened without losing which layer failed: a
transport failure always surfaces as the event-loop-closed variant, a domain
failure as the operation-specific variant, and the two variants are distinct
(for `add_event_handler` the inner operation is infallible, so its only error
is the transport failure). -/
theorem C3_convenience_ops_flatten
    (q : WakeQueue (ContextEvent (CtxChFn U (Except WindowOperationError Unit)) U))
    (qc : WakeQueue (ContextEvent (CtxChFn U (Except CreateWindowError WindowId)) U))
    (qe : WakeQueue (ContextEvent (CtxChFn U Unit) U))
    (fate : Fate) (ctx : ContextHandle U) :
    ((q.alive = false ∨ fate = Fate.dropped) →
      (∀ wid, (ContextProxy.destroy_window q fate ctx wid).2 =
        .error (.eventLoopClosed EventLoopClosedError.mk)) ∧
      (∀ wid visible, (ContextProxy.set_window_visible q fate ctx wid visible).2 =
        .error (.eventLoopClosed EventLoopClosedError.mk)) ∧
      (∀ wid name image, (ContextProxy.set_window_image q fate ctx wid name image).2 =
        .error (.eventLoopClosed EventLoopClosedError.mk)) ∧
      (∀ wid handler, (ContextProxy.add_window_event_handler q fate ctx wid handler).2 =
        .error (.eventLoopClosed EventLoopClosedError.mk))) ∧
    ((qc.alive = false ∨ fate = Fate.dropped) →
      ∀ self title options,
        (ContextProxy.create_window self qc fate ctx title options).2 =
          .error (.eventLoopClosed EventLoopClosedError.mk)) ∧
    ((qe.alive = false ∨ fate = Fate.dropped) →
      ∀ handler, (ContextProxy.add_event_handler qe fate ctx handler).2 =
        .error EventLoopClosedError.mk) ∧
    (q.alive = true → fate = Fate.executed →
      (∀ wid, (ContextProxy.destroy_window q fate ctx wid).2 =
        match (ContextHandle.destroy_window ctx wid).2 with
        | .ok a => .ok a
        | .error e => .error (.operation e)) ∧
      (∀ wid visible, (ContextProxy.set_window_visible q fate ctx wid visible).2 =
        match (ContextHandle.set_window_visible ctx wid visible).2 with
        | .ok a => .ok a
        | .error e => .error (.operation e)) ∧
      (∀ wid name image, (ContextProxy.set_window_image q fate ctx wid name image).2 =
        match (ContextHandle.set_window_image ctx wid name image).2 with
        | .ok a => .ok a
        | .error e => .error (.operation e)) ∧
      (∀ wid handler, (ContextProxy.add_window_event_handler q fate ctx wid handler).2 =
        match (ContextHandle.add_window_event_handler ctx wid handler).2 with
        | .ok a => .ok a
        | .error e => .error (.operation e))) ∧
    (qc.alive = true → fate = Fate.executed →
      ∀ self title options,
        (ContextProxy.create_window self qc fate ctx title options).2 =
          match (ContextHandle.create_window ctx title options).2 with
          | .ok wid => .ok (WindowProxy.new wid (ContextProxy.clone self))
          | .error e => .error (.createWindow e)) ∧
    (qe.alive = true → fate = Fate.executed →
      ∀ handler, (ContextProxy.add_event_handler qe fate ctx handler).2 = .ok ()) ∧
    (∀ el e, ProxyWindowOperationError.eventLoopClosed el ≠
      ProxyWindowOperationError.operation e) ∧
    (∀ el e, ProxyCreateWindowError.eventLoopClosed el ≠
      ProxyCreateWindowError.createWindow e) := by
  refine ⟨fun h => ⟨fun wid => ?_, fun wid v => ?_, fun wid n i => ?_, fun wid hh => ?_⟩,
    fun h self title options => ?_,
    fun h hh => ?_,
    fun ha hf => ?_,
    fun ha hf self title options => ?_,
    fun ha hf hh => ?_,
    fun el e hne => ProxyWindowOperationError.noConfusion hne,
    fun el e hne => ProxyCreateWindowError.noConfusion hne⟩
  · exact flatten_window_op_transport q fate ctx _ h
  · exact flatten_window_op_transport q fate ctx _ h
  · exact flatten_window_op_transport q fate ctx _ h
  · exact flatten_window_op_transport q fate ctx _ h
  · unfold ContextProxy.create_window
    rcases h with hc | hd
    · rw [run_function_wait_eq_closed _ _ _ _ hc]
      rfl
    · cases ha : qc.alive
      · rw [run_function_wait_eq_closed _ _ _ _ ha]
        rfl
      · subst hd
        rw [run_function_wait_eq_dropped _ _ _ ha]
        rfl
  · exact run_function_wait_transport_error qe fate ctx _ h
  · subst hf
    exact ⟨fun wid => flatten_window_op_executed q ctx _ ha,
      fun wid v => flatten_window_op_executed q ctx _ ha,
      fun wid n i => flatten_window_op_executed q ctx _ ha,
      fun wid hh => flatten_window_op_executed q ctx _ ha⟩
  · subst hf
    exact create_window_executed self qc ctx title options ha
  · subst hf
    exact congrArg Prod.snd (run_function_wait_eq_executed qe ctx
      (fun context => ContextHandle.add_event_handler context hh) ha)

/-- C3 witness: with a live queue, an executed envelope and an empty window
registry, destroying window 5 fails with the domain-level variant
`operation (invalidWindowId 5)`, not the transport-level variant. -/
theorem C3_witness :
    (ContextProxy.destroy_window (U := Unit) { alive := true, items := [] } .executed
      { nextWindowId := 0, windows := [], eventHandlers := [], platformHealthy := true }
      5).2 = .error (.operation (.invalidWindowId 5)) :=
  ((C3_convenience_ops_flatten { alive := true, items := [] }
      { alive := true, items := [] } { alive := true, items := [] } .executed
      { nextWindowId := 0, windows := [], eventHandlers := [], platformHealthy := true }
    ).2.2.2.1 rfl rfl).1 5

end ShowImage
